import Mathlib

/-!
Verification of the doma GPU-holding daemon (src/doma): a shallow embedding of
the core data model and algorithms, followed by theorems checking the
specification's claims against it.

Conventions of the embedding:
* Python floats are modelled as rationals (`ℚ`).
* Python `int(x)` truncation toward zero is `pyInt`.
* `bytes` streams are lists of naturals; a pickled payload is modelled by an
  injective token encoding in which the characters of an embedded string
  appear literally (as they do in a real pickle stream), while numeric fields
  are encoded as tokens `≥ 256`, outside the ASCII range of the sentinel.
* Fallible Python code (raising) is modelled with `Except String` /
  `Option`, threading partially mutated state explicitly.
-/

/-- Python `int(x)` for a rational: truncation toward zero (`Int.tdiv` of the
reduced numerator by the reduced denominator). -/
def pyInt (q : ℚ) : ℤ :=
  q.num.tdiv q.den

/-- gpu.py `compute_storage_size(gb)`: `int(gb * 1024 * 1024 * 1024 / 8)`,
the number of 8-byte (`torch.double`) elements occupying `gb` gigabytes. -/
def compute_storage_size (gb : ℚ) : ℤ :=
  pyInt (gb * 1024 * 1024 * 1024 / 8)

/-- core.py `Signal`: the closed enumeration of control signals. -/
inductive Signal where
  | START
  | STOP
  | RESTART
  | SHUTDOWN
  | GREETING
deriving DecidableEq

/-- configs.py `AlgorithmConfig`: tuning parameters of the hold loop, with the
declared pydantic defaults. -/
structure AlgorithmConfig where
  operator_gb : ℚ := 1
  util_eps : ℚ := 1/100
  max_sleep_time : ℚ := 1
  min_sleep_time : ℚ := 0
  inspect_interval : ℚ := 1
  util_samples_num : ℕ := 5
deriving DecidableEq

/-- configs.py `ControllerConfig`: policy for one hold cycle.  Every field is
declared non-optional; in particular `hold_mem` is a plain `float` field with
default `40` (docstring: "Memory to hold in GB. Defaults to 40GB"). -/
structure ControllerConfig where
  wait_minutes : ℚ := 5
  mem_threshold : ℚ := 1/2
  hold_mem : ℚ := 40
  hold_util : ℚ := 4/5
  alg_config : AlgorithmConfig := {}
deriving DecidableEq

/-- The `ControllerConfig()` obtained when every field is absent from the
configuration surface: all pydantic defaults apply. -/
def defaultControllerConfig : ControllerConfig := {}

/-- core.py `SocketData`: the control message exchanged on the wire.  The
`error` field carries the string captured from a dispatch exception
(`error = str(e)` in `listen_signal`). -/
structure SocketData where
  signal : Signal
  config : Option ControllerConfig := none
  error : Option String := none
deriving DecidableEq

/-- Byte value of each character of a string, as they appear literally in a
pickle stream for an embedded `str` payload. -/
def strBytes (s : String) : List ℕ :=
  s.data.map Char.toNat

/-- core.py `EOS = b"END_OF_SOCKET_DATA"`: the out-of-band frame sentinel. -/
def EOS : List ℕ :=
  strBytes ("END_OF_SOCKET_DATA")

/-- Injective code of an integer in the naturals (sign interleaving). -/
def intCode (z : ℤ) : ℕ :=
  if 0 ≤ z then 2 * z.toNat else 2 * z.natAbs + 1

/-- Decode `intCode`. -/
def intDecode (n : ℕ) : ℤ :=
  if n % 2 = 0 then (n / 2 : ℤ) else -((n / 2 : ℕ) : ℤ)

/-- Token of a rational inside the modelled pickle stream.  Tokens of numeric
fields are `≥ 256`, so they can never collide with the ASCII bytes of the
sentinel; in a real pickle stream numbers are likewise stored in binary forms
that cannot spell the 18-character sentinel. -/
def ratTok (q : ℚ) : ℕ :=
  256 + Nat.pair (intCode q.num) q.den

/-- Decode `ratTok`. -/
def ratDecode (t : ℕ) : ℚ :=
  (intDecode (Nat.unpair (t - 256)).1 : ℚ) / ((Nat.unpair (t - 256)).2 : ℚ)

/-- Token of a natural (for `util_samples_num`). -/
def natTok (n : ℕ) : ℕ :=
  256 + n

/-- Serialized form of a `Signal` (its enum value in core.py). -/
def serSig : Signal → ℕ
  | .START => 0
  | .STOP => 1
  | .RESTART => 2
  | .SHUTDOWN => 3
  | .GREETING => 4

/-- Parse a serialized `Signal`. -/
def deserSig : ℕ → Option Signal
  | 0 => some .START
  | 1 => some .STOP
  | 2 => some .RESTART
  | 3 => some .SHUTDOWN
  | 4 => some .GREETING
  | _ => none

/-- Serialized form of a `ControllerConfig`: its ten numeric fields in
declaration order. -/
def serConfig (c : ControllerConfig) : List ℕ :=
  [ratTok c.wait_minutes, ratTok c.mem_threshold, ratTok c.hold_mem,
   ratTok c.hold_util, ratTok c.alg_config.operator_gb,
   ratTok c.alg_config.util_eps, ratTok c.alg_config.max_sleep_time,
   ratTok c.alg_config.min_sleep_time, ratTok c.alg_config.inspect_interval,
   natTok c.alg_config.util_samples_num]

/-- Parse a serialized `ControllerConfig`, returning the remaining bytes. -/
def deserConfig : List ℕ → Option (ControllerConfig × List ℕ)
  | b1 :: b2 :: b3 :: b4 :: b5 :: b6 :: b7 :: b8 :: b9 :: b10 :: rest =>
      some ({ wait_minutes := ratDecode b1, mem_threshold := ratDecode b2,
              hold_mem := ratDecode b3, hold_util := ratDecode b4,
              alg_config := { operator_gb := ratDecode b5,
                              util_eps := ratDecode b6,
                              max_sleep_time := ratDecode b7,
                              min_sleep_time := ratDecode b8,
                              inspect_interval := ratDecode b9,
                              util_samples_num := b10 - 256 } }, rest)
  | _ => none

/-- Rebuild a string from its literal bytes. -/
def bytesToStr (bs : List ℕ) : String :=
  String.mk (bs.map Char.ofNat)

/-- Model of `pickle.dumps` for a `SocketData`: signal token, then the
optional config (presence tag then fields), then the optional error string
(presence tag then its characters, literally). -/
def ser (m : SocketData) : List ℕ :=
  [serSig m.signal]
    ++ (match m.config with
        | none => [0]
        | some c => 1 :: serConfig c)
    ++ (match m.error with
        | none => [0]
        | some s => 1 :: strBytes s)

/-- Model of `pickle.loads` for a `SocketData`: the inverse positional parse;
`none` models an unpickling exception. -/
def deser (bs : List ℕ) : Option SocketData :=
  match bs with
  | [] => none
  | sb :: rest =>
    match deserSig sb with
    | none => none
    | some sig =>
      match
        (match rest with
         | 0 :: rest2 => some ((none : Option ControllerConfig), rest2)
         | 1 :: rest2 =>
             match deserConfig rest2 with
             | some (c, r) => some (some c, r)
             | none => none
         | _ => none) with
      | none => none
      | some (cfg, rest2) =>
        match rest2 with
        | [0] => some { signal := sig, config := cfg, error := none }
        | 1 :: srest => some { signal := sig, config := cfg, error := some (bytesToStr srest) }
        | _ => none

/-- core.py `send_socket_data` as a byte stream: `pickle.dumps(data) + EOS`. -/
def send_socket_data (m : SocketData) : List ℕ :=
  ser m ++ EOS

/-- The bytes strictly before the first occurrence of `sep` in the stream
(`bytes_buffer.split(EOS)[0]` in core.py); `none` when `sep` never occurs, in
which case the receive loop of `recv_socket_data` never breaks (it blocks on
`conn.recv` forever). -/
def takeBefore (sep : List ℕ) : List ℕ → Option (List ℕ)
  | [] => none
  | b :: rest =>
      if sep.isPrefixOf (b :: rest) then some []
      else (takeBefore sep rest).map (fun l => b :: l)

/-- core.py `recv_socket_data` on the totality of bytes a client sends over
one connection: accumulate until the sentinel appears, split at its first
occurrence and unpickle the preceding bytes.  Outer `none`: the sentinel never
appears and the call never returns; inner `none`: `pickle.loads` raises. -/
def recv_socket_data (stream : List ℕ) : Option (Option SocketData) :=
  (takeBefore EOS stream).map deser

/-- The sentinel does not occur (at any position) in the byte list. -/
abbrev SentinelFree (xs : List ℕ) : Prop :=
  ∀ i < xs.length, ¬ EOS.isPrefixOf (xs.drop i) = true

/-- gpu.py `GPUSnapshot`: one 1 Hz sample of the device. -/
structure GPUSnapshot where
  used_mem : ℚ
  free_mem : ℚ
  util : ℚ
deriving DecidableEq

/-- Ring-buffer append of `collections.deque(maxlen := maxlen)`: append on the
right, evicting from the left whenever the length would exceed `maxlen`. -/
def pushSnap (maxlen : ℕ) (q : List GPUSnapshot) (x : GPUSnapshot) : List GPUSnapshot :=
  let q' := q ++ [x]
  if maxlen < q'.length then q'.drop (q'.length - maxlen) else q'

/-- The snapshot queue obtained from an initially empty (freshly reset)
history after the sampler has appended the snapshots `xs` in order. -/
def fillQueue (maxlen : ℕ) (xs : List GPUSnapshot) : List GPUSnapshot :=
  xs.foldl (pushSnap maxlen) []

/-- gpu.py `GPUController.is_history_full`:
`len(self.gpu_snapshot_queue) == self.gpu_snapshot_queue.maxlen`. -/
def is_history_full (maxlen : ℕ) (q : List GPUSnapshot) : Bool :=
  q.length == maxlen

/-- gpu.py `GPUController.get_history_metric("used_mem", "max")`: the maximum
`used_mem` over the queue (`none` on an empty queue, where Python `max`
would raise; the caller only evaluates it on a full, hence nonempty, queue). -/
def get_history_metric_used_max (q : List GPUSnapshot) : Option ℚ :=
  (q.map GPUSnapshot.used_mem).maximum

/-- Comparison `get_history_metric("used_mem", "max") < mem_threshold`. -/
def usedMaxBelow (mem_threshold : ℚ) (q : List GPUSnapshot) : Bool :=
  match get_history_metric_used_max q with
  | some m => decide (m < mem_threshold)
  | none => false

/-- gpu.py `GPUGroupManager._validate_controller_start_condition`: history
full AND not already holding AND max used memory over the window below the
threshold. -/
def validate_controller_start_condition (mem_threshold : ℚ) (maxlen : ℕ)
    (holding : Bool) (q : List GPUSnapshot) : Bool :=
  is_history_full maxlen q && !holding && usedMaxBelow mem_threshold q

/-- Observable controller state used by the manager's polling loop. -/
structure CtrlState where
  holding : Bool
  queue : List GPUSnapshot
deriving DecidableEq

/-- One controller's step of `GPUGroupManager._controllers_loop`: start
holding exactly when `_validate_controller_start_condition` passes. -/
def controllerLoopBody (mem_threshold : ℚ) (maxlen : ℕ) (c : CtrlState) : CtrlState :=
  if validate_controller_start_condition mem_threshold maxlen c.holding c.queue then
    { c with holding := true }
  else c

/-- gpu.py `GPUController.__init__`: the ring buffer capacity,
`int(config.wait_minutes * 60)`. -/
def bufferCapacity (cfg : ControllerConfig) : ℕ :=
  (pyInt (cfg.wait_minutes * 60)).toNat

/-- State of one execution of `GPUController.hold` between loop iterations:
the `first` flag, the allocated holder size (if any), the binary-search
bracket and midpoint, the convergence flag and the utilization samples
collected in the current measurement window. -/
structure HoldState where
  first : Bool
  holder : Option ℤ
  minS : ℚ
  maxS : ℚ
  midS : ℚ
  found : Bool
  samples : List ℚ
deriving DecidableEq

/-- The state on entering the `while` loop of `hold`: bracket from the
algorithm config, midpoint of the bracket, nothing measured yet. -/
def initHoldState (alg : AlgorithmConfig) : HoldState :=
  { first := true, holder := none, minS := alg.min_sleep_time,
    maxS := alg.max_sleep_time,
    midS := (alg.max_sleep_time + alg.min_sleep_time) / 2,
    found := false, samples := [] }

/-- Error raised by the first hold iteration when the target footprint is
below the baseline usage (the source interpolates the numbers into the
message; the text is modelled without them). -/
def holdTargetErrMsg : String :=
  "Target GB is less than used GB. Please reduce the operator GB."

/-- One iteration of the `while not self.stop_signal.is_set()` loop of
`GPUController.hold`, given the environment readings of this iteration:
`used_gb` (consulted only on the first iteration), `inspectDue`
(`toc - tic >= inspect_interval`) and `utilSample` (`self.get_util()`).
On the first iteration the holder is allocated, or a `ValueError` is raised
when `holder_gb = gb - used_gb` is negative.  Afterwards, while the target
sleep time has not been found and a measurement window has elapsed, one
utilization sample is collected per pass until `util_samples_num` samples
exist; then their average `cur_util` decides convergence
(`|cur_util - util| <= util_eps`) or tightens the bracket and recomputes the
midpoint. -/
def holdIter (alg : AlgorithmConfig) (hold_util gb : ℚ) (s : HoldState)
    (used_gb : ℚ) (inspectDue : Bool) (utilSample : ℚ) : Except String HoldState :=
  if s.first then
    let holder_gb := gb - used_gb
    if holder_gb < 0 then .error holdTargetErrMsg
    else .ok { s with first := false, holder := some (compute_storage_size holder_gb) }
  else if !s.found && inspectDue then
    if s.samples.length < alg.util_samples_num then
      .ok { s with samples := s.samples ++ [utilSample] }
    else
      let cur_util := s.samples.sum / (alg.util_samples_num : ℚ)
      if |cur_util - hold_util| ≤ alg.util_eps then
        .ok { s with found := true, samples := [] }
      else
        let s1 :=
          if cur_util < hold_util then { s with maxS := s.midS }
          else if hold_util < cur_util then { s with minS := s.midS }
          else s
        .ok { s1 with midS := (s1.maxS + s1.minS) / 2, samples := [] }
  else .ok s

/-- Iterated `holdIter` over a trace of per-iteration environment readings;
an uncaught `ValueError` aborts the run (the holding thread dies). -/
def holdRun (alg : AlgorithmConfig) (hold_util gb : ℚ) (s : HoldState) :
    List (ℚ × Bool × ℚ) → Except String HoldState
  | [] => .ok s
  | (u, d, v) :: rest =>
      match holdIter alg hold_util gb s u d v with
      | .error e => .error e
      | .ok s' => holdRun alg hold_util gb s' rest

/-- gpu.py lines 50–53 of `hold`: `gb = self.config.hold_mem`, then
`if gb is None: gb = self.get_mem_total() * 0.5`.  The fallback branch is
modelled over `Option`; the value actually read from the config is always
present because `ControllerConfig.hold_mem` is a required `float` field. -/
def resolveHoldMem (hold_mem : Option ℚ) (mem_total : ℚ) : ℚ :=
  match hold_mem with
  | none => mem_total * (1/2)
  | some gb => gb

/-- The target total footprint `gb` computed on entering `Holding` for a
validated `ControllerConfig` (whose `hold_mem` field always holds a value). -/
def holdTargetGb (cfg : ControllerConfig) (mem_total : ℚ) : ℚ :=
  resolveHoldMem (some cfg.hold_mem) mem_total

/-- Flags of one `GPUController` as seen by the manager's stop path:
whether its hold thread is running and whether its 1 Hz sampler has been
told to stop (`inspect_stop_signal`). -/
structure CtrlFlags where
  holding : Bool
  inspectStopped : Bool
deriving DecidableEq

/-- gpu.py `GPUGroupManager` state relevant to signal dispatch: the adopted
config, the `running_signal` event, whether `running_thread` is not `None`,
and the controller set (`None` before the first `reset_controllers`). -/
structure ManagerState where
  config : ControllerConfig
  runningSignal : Bool
  runningThread : Bool
  controllers : Option (List CtrlFlags)
deriving DecidableEq

/-- The controllers owned by a manager (empty before the first reset). -/
def managerCtrls (st : ManagerState) : List CtrlFlags :=
  st.controllers.getD []

/-- Error message of `GPUGroupManager.stop_controllers`. -/
def stopCtrlsErrMsg : String :=
  "Controllers are not running. Please start them first."

/-- Error message of `GPUGroupManager.start_controllers`. -/
def startCtrlsErrMsg : String :=
  "Controllers are already running. Please stop them first."

/-- gpu.py `GPUGroupManager.stop_controllers`: raises a `RuntimeError` when
`running_thread is None`; otherwise clears `running_signal` and joins
`_controllers_loop`, whose epilogue stops every holding controller and sets
every sampler's `inspect_stop_signal`. -/
def stop_controllers (st : ManagerState) : ManagerState × Option String :=
  if st.runningThread then
    ({ st with runningSignal := false, runningThread := false,
               controllers := st.controllers.map (List.map
                 (fun _ => { holding := false, inspectStopped := true })) },
     none)
  else (st, some stopCtrlsErrMsg)

/-- gpu.py `GPUGroupManager.start_controllers`: raises a `RuntimeError` when
`running_thread` is already set; otherwise sets `running_signal` and spawns
`_controllers_loop`. -/
def start_controllers (st : ManagerState) : ManagerState × Option String :=
  if st.runningThread then (st, some startCtrlsErrMsg)
  else ({ st with runningSignal := true, runningThread := true }, none)

/-- gpu.py `GPUGroupManager.reset_controllers`: stop first when
`running_signal` is set, then replace the whole controller set with one fresh
controller per visible device. -/
def reset_controllers (deviceCount : ℕ) (st : ManagerState) : ManagerState × Option String :=
  let p := if st.runningSignal then stop_controllers st else (st, none)
  match p.2 with
  | some e => (p.1, some e)
  | none =>
      let fresh : List CtrlFlags :=
        List.replicate deviceCount { holding := false, inspectStopped := false }
      ({ p.1 with controllers := some fresh }, none)

/-- gpu.py `GPUGroupManager.update_config`: adopt the config when present. -/
def update_config (st : ManagerState) (cfg : Option ControllerConfig) : ManagerState :=
  match cfg with
  | none => st
  | some c => { st with config := c }

/-- Outcome of dispatching one decoded request in `listen_signal`: the state
after the `try` block, the `error` captured by the `except` clause (if the
handler raised) and the value of the loop flag `run` afterwards. -/
structure DispatchResult where
  state : ManagerState
  err : Option String
  run : Bool
deriving DecidableEq

/-- The `match signal` dispatch of `GPUGroupManager.listen_signal`, with the
surrounding `try/except` capturing any raised error into `err`.  `START` and
`RESTART` adopt the config, rebuild the controller set and start it; `STOP`
stops it; `SHUTDOWN` stops it only when `running_thread` is set and clears
`run`; `GREETING` does nothing. -/
def handleSignal (deviceCount : ℕ) (st : ManagerState) (sig : Signal)
    (cfg : Option ControllerConfig) : DispatchResult :=
  match sig with
  | .START | .RESTART =>
      let st1 := update_config st cfg
      let p := reset_controllers deviceCount st1
      match p.2 with
      | some e => { state := p.1, err := some e, run := true }
      | none =>
          let p2 := start_controllers p.1
          { state := p2.1, err := p2.2, run := true }
  | .STOP =>
      let p := stop_controllers st
      { state := p.1, err := p.2, run := true }
  | .SHUTDOWN =>
      if st.runningThread then
        let p := stop_controllers st
        match p.2 with
        | some e => { state := p.1, err := some e, run := true }
        | none => { state := p.1, err := none, run := false }
      else { state := st, err := none, run := false }
  | .GREETING => { state := st, err := none, run := true }

/-- Result of running `listen_signal` over a finite sequence of accepted
connections: the responses sent back, the final manager state, whether an
exception escaped the loop (crashing the listener), and whether the epilogue
`self.socket.close(); os.remove(self.server_address)` was reached. -/
structure ListenResult where
  responses : List SocketData
  final : ManagerState
  crashed : Bool
  addressRemoved : Bool
deriving DecidableEq

/-- Construction of the response `SocketData(signal=Signal.GREETING,
error=error)` at gpu.py line 277.  core.py declares the field as
`error: Optional[Exception]` and the model config `arbitrary_types_allowed`
makes pydantic v2 validate it by an `isinstance` check, while `listen_signal`
assigns `error = str(e)` — a `str`, which is not an `Exception` — so
constructing a response with a present error raises `ValidationError`; a
`None` error validates and the response is built. -/
def buildResponse (err : Option String) : Except String SocketData :=
  match err with
  | none => .ok { signal := .GREETING, config := none, error := none }
  | some e => .error ("pydantic ValidationError: str is not an instance of Exception: " ++ e)

/-- gpu.py `GPUGroupManager.listen_signal` over the results of
`recv_socket_data` on successive accepted connections (`none` models a
receive/unpickling exception, which is raised outside the `try` block).  Each
successfully decoded request is dispatched; the response construction
(`buildResponse`) validates only an absent error, so an error-free response
is sent and the loop continues (or exits on a cleared `run` through the
epilogue that closes the listener and removes the channel address), whereas a
captured dispatch error makes the response construction raise a pydantic
`ValidationError` outside the `try`, crashing the loop with no response sent
and the epilogue skipped — as does a decode failure.  The accepted connection
itself is always closed by its `with conn:` block. -/
def listen_signal (deviceCount : ℕ) (st : ManagerState) :
    List (Option SocketData) → ListenResult
  | [] => { responses := [], final := st, crashed := false, addressRemoved := true }
  | none :: _ => { responses := [], final := st, crashed := true, addressRemoved := false }
  | some req :: rest =>
      let d := handleSignal deviceCount st req.signal req.config
      match buildResponse d.err with
      | .error _ =>
          { responses := [], final := d.state, crashed := true, addressRemoved := false }
      | .ok resp =>
          if d.run then
            let r := listen_signal deviceCount d.state rest
            { r with responses := resp :: r.responses }
          else
            { responses := [resp], final := d.state, crashed := false, addressRemoved := true }

/-- gpu.py `GPUController.stop_holding`: raises a `RuntimeError` when the
holding executor is `None` (controller not holding); otherwise sets the stop
event, joins the hold thread and clears the flags. -/
def stop_holding (holdingExecutor : Bool) (_holding : Bool) :
    Except String (Bool × Bool) :=
  if holdingExecutor then .ok (false, false)
  else .error ("GPUHolder is not running")

/-- A manager whose controllers have never been started (or were stopped):
`running_thread is None`. -/
def mgrStopped : ManagerState :=
  { config := {}, runningSignal := false, runningThread := false, controllers := none }

/-- A manager whose controller loop is running, with one controller currently
holding its device. -/
def mgrRunning : ManagerState :=
  { config := {}, runningSignal := true, runningThread := true,
    controllers := some [{ holding := true, inspectStopped := false }] }

/-- A `STOP` request message. -/
def reqStop : SocketData := { signal := .STOP }

/-- A `GREETING` request message. -/
def reqGreet : SocketData := { signal := .GREETING }

/-- A `SHUTDOWN` request message. -/
def reqShutdown : SocketData := { signal := .SHUTDOWN }

/-- A controller configuration with a one-minute idle window. -/
def wcfgWait1 : ControllerConfig := { wait_minutes := 1 }

/-- An algorithm configuration taking a single utilization sample per
measurement window. -/
def algOneSample : AlgorithmConfig := { util_samples_num := 1 }

/-- A hold-loop state past its first iteration, not yet converged. -/
def holdStIdle : HoldState :=
  { first := false, holder := none, minS := 0, maxS := 1, midS := 0,
    found := false, samples := [] }

/-- A hold-loop state that has already converged. -/
def holdStDone : HoldState := { holdStIdle with found := true }

/-- A hold-loop state with a complete one-sample measurement window. -/
def holdStMeasured : HoldState := { holdStIdle with samples := [0] }

/-- A hold-loop state still on its first iteration. -/
def holdStFirst : HoldState := { holdStIdle with first := true }

/-- A control message whose error text is exactly the frame sentinel. -/
def msgSentinelErr : SocketData :=
  { signal := .GREETING, config := none, error := some ("END_OF_SOCKET_DATA") }

/-- A configuration with whole-number field values. -/
def intFieldCfg : ControllerConfig :=
  { wait_minutes := 5, mem_threshold := 1, hold_mem := 40, hold_util := 1,
    alg_config := { operator_gb := 1, util_eps := 1, max_sleep_time := 1,
                    min_sleep_time := 0, inspect_interval := 1,
                    util_samples_num := 5 } }

/-- A benign control message carrying a config and a short error text. -/
def msgBenign : SocketData :=
  { signal := .GREETING, config := some intFieldCfg, error := some ("ok") }

/-- C5, counterexample: with every configuration field absent (the default
`ControllerConfig()`), the target footprint computed on entering `Holding` is
the field default 40 GB, not half of the device's total memory (100 GB
total would give 50). -/
theorem claim_C5_counterexample :
    holdTargetGb defaultControllerConfig 100 = 40 ∧
    ¬ holdTargetGb defaultControllerConfig 100 = 100 * (1/2) := by
  constructor
  · rfl
  · norm_num [holdTargetGb, resolveHoldMem, defaultControllerConfig]

/-- C5 (amended): `hold_mem` is a required field whose default is 40 GB, so a
configuration with the field absent yields a 40 GB target footprint
regardless of total device memory; the half-of-total fallback in `hold` is
taken only for a `None` value, which the validated config never produces. -/
theorem claim_C5 :
    defaultControllerConfig.hold_mem = 40 ∧
    (∀ mem_total : ℚ, holdTargetGb defaultControllerConfig mem_total = 40) ∧
    (∀ mem_total : ℚ, resolveHoldMem none mem_total = mem_total * (1/2)) :=
  ⟨rfl, fun _ => rfl, fun _ => rfl⟩

/-- C7, counterexample: `stop_holding` on a controller that is not holding
(`holding_executor is None`) raises `RuntimeError("GPUHolder is not
running")` instead of returning. -/
theorem claim_C7_counterexample :
    stop_holding false false = .error ("GPUHolder is not running") := rfl

/-- C7 (amended): calling stop on an already-stopped controller raises a
`RuntimeError` (it does not hang); likewise a manager `STOP` request with
controllers already stopped raises inside `stop_controllers` — the `except`
clause captures the message, but the listener then crashes (with the manager
state unchanged) when the error response construction fails pydantic
validation, so the request does not complete without error and no response is
sent. -/
theorem claim_C7 (dc : ℕ) (st : ManagerState) (cfg : Option ControllerConfig)
    (rest : List (Option SocketData)) (h : st.runningThread = false) :
    (∀ b : Bool, stop_holding false b = .error ("GPUHolder is not running")) ∧
    (handleSignal dc st .STOP cfg).err = some stopCtrlsErrMsg ∧
    listen_signal dc st (some reqStop :: rest) =
      { responses := [], final := st, crashed := true, addressRemoved := false } := by
  refine ⟨fun b => rfl, ?_, ?_⟩ <;>
    simp [listen_signal, handleSignal, stop_controllers, h, reqStop, buildResponse]

/-- C7 witness: the amended statement at a stopped manager. -/
theorem claim_C7_witness :
    mgrStopped.runningThread = false ∧
    ((∀ b : Bool, stop_holding false b = .error ("GPUHolder is not running")) ∧
     (handleSignal 1 mgrStopped .STOP none).err = some stopCtrlsErrMsg ∧
     listen_signal 1 mgrStopped (some reqStop :: [some reqGreet]) =
       { responses := [], final := mgrStopped, crashed := true, addressRemoved := false }) :=
  ⟨rfl, claim_C7 1 mgrStopped none [some reqGreet] rfl⟩

/-- C8 (amended): a connection whose request cannot be received/unpickled
makes the exception propagate out of the listener loop (the call sits outside
the `try` block): no response is sent, no further connection is served, and
the epilogue that closes the listener and removes the channel address is
skipped.  The accepted connection itself is closed by its `with conn:`
block. -/
theorem claim_C8 (dc : ℕ) (st : ManagerState) (rest : List (Option SocketData)) :
    listen_signal dc st (none :: rest) =
      { responses := [], final := st, crashed := true, addressRemoved := false } := rfl

/-- C8, counterexample: a stream without the sentinel never returns; a
garbage pre-sentinel payload fails unpickling, and the listener loop then
crashes without serving the following well-formed connection. -/
theorem claim_C8_counterexample :
    recv_socket_data (strBytes ("garbage")) = none ∧
    recv_socket_data (strBytes ("garbage") ++ EOS) = some none ∧
    listen_signal 1 mgrStopped [none, some reqGreet] =
      { responses := [], final := mgrStopped, crashed := true, addressRemoved := false } :=
  ⟨by decide, by decide, rfl⟩

/-- C10, counterexample: a `STOP` request to a never-started manager does not
produce a response carrying the error — the listener crashes on the error
response construction before anything is sent. -/
theorem claim_C10_counterexample :
    (listen_signal 1 mgrStopped [some reqStop]).responses = [] ∧
    (listen_signal 1 mgrStopped [some reqStop]).crashed = true :=
  ⟨rfl, rfl⟩

/-- C10 (amended): with `running_thread = None` the two signals behave
asymmetrically, but on the `STOP` side the captured error is never reported:
the dispatch raises inside `stop_controllers` (the `except` records the
message and would continue the loop), yet the listener then crashes
constructing the error response, sending nothing; `SHUTDOWN` checks
`running_thread` first, skips `stop_controllers`, completes with no error
(`None` validates), sends the response and shuts down cleanly through the
epilogue. -/
theorem claim_C10 (dc : ℕ) (st : ManagerState) (cfg : Option ControllerConfig)
    (rest : List (Option SocketData)) (h : st.runningThread = false) :
    handleSignal dc st .STOP cfg =
      { state := st, err := some stopCtrlsErrMsg, run := true } ∧
    listen_signal dc st (some reqStop :: rest) =
      { responses := [], final := st, crashed := true, addressRemoved := false } ∧
    handleSignal dc st .SHUTDOWN cfg =
      { state := st, err := none, run := false } ∧
    listen_signal dc st (some reqShutdown :: rest) =
      { responses := [{ signal := .GREETING, config := none, error := none }],
        final := st, crashed := false, addressRemoved := true } := by
  refine ⟨?_, ?_, ?_, ?_⟩
  · simp [handleSignal, stop_controllers, h]
  · simp [listen_signal, handleSignal, stop_controllers, h, reqStop, buildResponse]
  · simp [handleSignal, h]
  · simp [listen_signal, handleSignal, h, reqShutdown, buildResponse]

/-- C10 witness: the amended asymmetry at a concrete never-started manager. -/
theorem claim_C10_witness :
    mgrStopped.runningThread = false ∧
    (handleSignal 1 mgrStopped .STOP none =
        { state := mgrStopped, err := some stopCtrlsErrMsg, run := true } ∧
     listen_signal 1 mgrStopped (some reqStop :: []) =
        { responses := [], final := mgrStopped, crashed := true, addressRemoved := false } ∧
     handleSignal 1 mgrStopped .SHUTDOWN none =
        { state := mgrStopped, err := none, run := false } ∧
     listen_signal 1 mgrStopped (some reqShutdown :: []) =
        { responses := [{ signal := .GREETING, config := none, error := none }],
          final := mgrStopped, crashed := false, addressRemoved := true }) :=
  ⟨rfl, claim_C10 1 mgrStopped none [] rfl⟩

/-- C2 (code bug): the dispatch `try/except` does capture a raised error as
`str(e)`, but the program never sends the claimed error response: the
construction `SocketData(signal=GREETING, error=str(e))` fails pydantic
validation of the `Optional[Exception]` field and raises outside the `try`,
so the listener crashes with no response sent, the remaining connections
unserved and the epilogue skipped.  The claimed catch-respond-continue
behavior is the code's evident intent (app.py consumes `socket_data.error`
from responses) but not its behavior. -/
theorem claim_C2 (dc : ℕ) (st : ManagerState) (req : SocketData)
    (rest : List (Option SocketData)) (e : String)
    (h : (handleSignal dc st req.signal req.config).err = some e) :
    listen_signal dc st (some req :: rest) =
      { responses := [], final := (handleSignal dc st req.signal req.config).state,
        crashed := true, addressRemoved := false } := by
  simp [listen_signal, h, buildResponse]

/-- C2 witness: a `STOP` request on a stopped manager raises during dispatch,
and the listener crashes without answering it or the following `GREETING`
connection. -/
theorem claim_C2_witness :
    (handleSignal 1 mgrStopped reqStop.signal reqStop.config).err = some stopCtrlsErrMsg ∧
    listen_signal 1 mgrStopped (some reqStop :: [some reqGreet]) =
      { responses := [],
        final := (handleSignal 1 mgrStopped reqStop.signal reqStop.config).state,
        crashed := true, addressRemoved := false } :=
  ⟨rfl, claim_C2 1 mgrStopped reqStop [some reqGreet] stopCtrlsErrMsg rfl⟩

/-- C9: a `SHUTDOWN` request, from any manager state whose stopped states
have no holding controllers (in particular while controllers are holding),
stops every controller, answers with an error-free `GREETING`, exits the
listener loop without crashing, and reaches the epilogue that closes the
socket and removes the channel address. -/
theorem claim_C9 (dc : ℕ) (st : ManagerState) (rest : List (Option SocketData))
    (h : st.runningThread = false → ∀ c ∈ managerCtrls st, c.holding = false) :
    (listen_signal dc st (some reqShutdown :: rest)).responses =
        [{ signal := .GREETING, config := none, error := none }] ∧
    (∀ c ∈ managerCtrls (listen_signal dc st (some reqShutdown :: rest)).final,
        c.holding = false) ∧
    (st.runningThread = true →
        ∀ c ∈ managerCtrls (listen_signal dc st (some reqShutdown :: rest)).final,
          c.inspectStopped = true) ∧
    (listen_signal dc st (some reqShutdown :: rest)).crashed = false ∧
    (listen_signal dc st (some reqShutdown :: rest)).addressRemoved = true := by
  by_cases hrt : st.runningThread
  · refine ⟨?_, ?_, ?_, ?_, ?_⟩ <;>
      simp [listen_signal, handleSignal, stop_controllers, hrt, reqShutdown, managerCtrls,
        buildResponse] <;>
      cases st.controllers <;> simp
  · have hb : st.runningThread = false := by simpa using hrt
    refine ⟨?_, ?_, ?_, ?_, ?_⟩ <;>
      simp [listen_signal, handleSignal, hb, reqShutdown, managerCtrls, buildResponse]
    · exact fun c hc => h hb c (by simpa [managerCtrls] using hc)

/-- C9 witness: shutdown while one controller is holding. -/
theorem claim_C9_witness :
    (mgrRunning.runningThread = false → ∀ c ∈ managerCtrls mgrRunning, c.holding = false) ∧
    ((listen_signal 1 mgrRunning (some reqShutdown :: [])).responses =
        [{ signal := .GREETING, config := none, error := none }] ∧
     (∀ c ∈ managerCtrls (listen_signal 1 mgrRunning (some reqShutdown :: [])).final,
        c.holding = false) ∧
     (mgrRunning.runningThread = true →
        ∀ c ∈ managerCtrls (listen_signal 1 mgrRunning (some reqShutdown :: [])).final,
          c.inspectStopped = true) ∧
     (listen_signal 1 mgrRunning (some reqShutdown :: [])).crashed = false ∧
     (listen_signal 1 mgrRunning (some reqShutdown :: [])).addressRemoved = true) :=
  ⟨by decide, claim_C9 1 mgrRunning [] (by decide)⟩

lemma pushSnap_length (N : ℕ) (q : List GPUSnapshot) (x : GPUSnapshot)
    (h : q.length ≤ N) :
    (pushSnap N q x).length = min (q.length + 1) N := by
  simp only [pushSnap]
  split
  · rename_i h1
    simp only [List.length_drop, List.length_append, List.length_cons,
      List.length_nil] at *
    omega
  · rename_i h1
    simp only [List.length_append, List.length_cons, List.length_nil] at *
    omega

lemma foldl_pushSnap_length (N : ℕ) (xs : List GPUSnapshot) :
    ∀ q : List GPUSnapshot, q.length ≤ N →
      (List.foldl (pushSnap N) q xs).length = min (q.length + xs.length) N := by
  induction xs with
  | nil => intro q h; simpa using by omega
  | cons x xs ih =>
      intro q h
      rw [List.foldl_cons, ih (pushSnap N q x) (by rw [pushSnap_length N q x h]; omega),
        pushSnap_length N q x h]
      simp
      omega

lemma fillQueue_length (N : ℕ) (xs : List GPUSnapshot) :
    (fillQueue N xs).length = min xs.length N := by
  unfold fillQueue
  rw [foldl_pushSnap_length N xs [] (by simp)]
  simp

lemma pyInt_nonneg_eq_floor (q : ℚ) (h : 0 ≤ q) : pyInt q = ⌊q⌋ := by
  unfold pyInt
  rw [Rat.floor_def]
  exact Int.tdiv_eq_ediv (Rat.num_nonneg.mpr h) (Int.le.intro_sub _ rfl)

lemma bufferCapacity_ge_six (cfg : ControllerConfig)
    (h : 1/10 ≤ cfg.wait_minutes) : 6 ≤ bufferCapacity cfg := by
  unfold bufferCapacity
  have h0 : (0 : ℚ) ≤ cfg.wait_minutes * 60 := by linarith
  rw [pyInt_nonneg_eq_floor _ h0]
  have h6 : (6 : ℤ) ≤ ⌊cfg.wait_minutes * 60⌋ := by
    rw [Int.le_floor]
    push_cast
    linarith
  omega

/-- C1: for a controller whose window is the ring buffer of capacity
`int(wait_minutes * 60)` (at least 6, hence nonempty), the manager's loop
starts holding a non-holding controller exactly when the buffer is full and
the maximum `used_mem` over it is strictly below `mem_threshold`; filling an
initially empty buffer with fewer samples than the capacity `N` makes the
start condition false, and from the `N`-th sample onward the buffer is
full. -/
theorem claim_C1 (cfg : ControllerConfig) (hw : 1/10 ≤ cfg.wait_minutes) :
    6 ≤ bufferCapacity cfg ∧
    (∀ c : CtrlState, c.holding = false →
        ((controllerLoopBody cfg.mem_threshold (bufferCapacity cfg) c).holding = true ↔
          (is_history_full (bufferCapacity cfg) c.queue = true ∧
           usedMaxBelow cfg.mem_threshold c.queue = true))) ∧
    (∀ xs : List GPUSnapshot, xs.length < bufferCapacity cfg →
        validate_controller_start_condition cfg.mem_threshold (bufferCapacity cfg) false
          (fillQueue (bufferCapacity cfg) xs) = false) ∧
    (∀ xs : List GPUSnapshot, bufferCapacity cfg ≤ xs.length →
        is_history_full (bufferCapacity cfg) (fillQueue (bufferCapacity cfg) xs) = true) := by
  refine ⟨bufferCapacity_ge_six cfg hw, ?_, ?_, ?_⟩
  · intro c hc
    simp only [controllerLoopBody, validate_controller_start_condition, hc,
      Bool.not_false, Bool.and_true]
    by_cases hful : is_history_full (bufferCapacity cfg) c.queue = true
    · by_cases hbel : usedMaxBelow cfg.mem_threshold c.queue = true
      · simp [hful, hbel]
      · simp only [Bool.not_eq_true] at hbel
        simp [hful, hbel, hc]
    · simp only [Bool.not_eq_true] at hful
      simp [hful, hc]
  · intro xs hlen
    have hful : is_history_full (bufferCapacity cfg) (fillQueue (bufferCapacity cfg) xs)
        = false := by
      simp [is_history_full, fillQueue_length]
      omega
    simp [validate_controller_start_condition, hful]
  · intro xs hlen
    simp [is_history_full, fillQueue_length]
    omega

/-- C1 witness: a one-minute window configuration. -/
theorem claim_C1_witness :
    1/10 ≤ wcfgWait1.wait_minutes ∧
    (6 ≤ bufferCapacity wcfgWait1 ∧
     (∀ c : CtrlState, c.holding = false →
        ((controllerLoopBody wcfgWait1.mem_threshold (bufferCapacity wcfgWait1) c).holding = true ↔
          (is_history_full (bufferCapacity wcfgWait1) c.queue = true ∧
           usedMaxBelow wcfgWait1.mem_threshold c.queue = true))) ∧
     (∀ xs : List GPUSnapshot, xs.length < bufferCapacity wcfgWait1 →
        validate_controller_start_condition wcfgWait1.mem_threshold (bufferCapacity wcfgWait1) false
          (fillQueue (bufferCapacity wcfgWait1) xs) = false) ∧
     (∀ xs : List GPUSnapshot, bufferCapacity wcfgWait1 ≤ xs.length →
        is_history_full (bufferCapacity wcfgWait1) (fillQueue (bufferCapacity wcfgWait1) xs) = true)) :=
  ⟨by norm_num [wcfgWait1], claim_C1 wcfgWait1 (by norm_num [wcfgWait1])⟩

lemma holdIter_found_fix (alg : AlgorithmConfig) (hold_util gb : ℚ) (s : HoldState)
    (u : ℚ) (d : Bool) (v : ℚ) (h1 : s.first = false) (h2 : s.found = true) :
    holdIter alg hold_util gb s u d v = .ok s := by
  simp [holdIter, h1, h2]

lemma holdRun_found_fix (alg : AlgorithmConfig) (hold_util gb : ℚ) (s : HoldState)
    (inputs : List (ℚ × Bool × ℚ)) (h1 : s.first = false) (h2 : s.found = true) :
    holdRun alg hold_util gb s inputs = .ok s := by
  induction inputs with
  | nil => rfl
  | cons p rest ih =>
      obtain ⟨u, d, v⟩ := p
      rw [holdRun, holdIter_found_fix alg hold_util gb s u d v h1 h2]
      exact ih

lemma sample_window_converges :
    |holdStMeasured.samples.sum / ((algOneSample.util_samples_num : ℕ) : ℚ) - 0| ≤
      algOneSample.util_eps := by
  norm_num [holdStMeasured, holdStIdle, algOneSample]

/-- C4: one tuning step of the sleep-time binary search preserves
`min_sleep_time ≤ mid_sleep_time ≤ max_sleep_time` and only narrows the
bracket; a converged state is a fixpoint of the iteration (no further
measurement or change), convergence is reached exactly by a full measurement
window whose average is within `utilization_epsilon` of `hold_util` while
`mid_sleep_time` is kept, and the initial state satisfies the invariant
whenever the configured bracket is non-degenerate. -/
theorem claim_C4 (alg : AlgorithmConfig) (hold_util gb : ℚ) :
    (∀ s : HoldState, ∀ u : ℚ, ∀ d : Bool, ∀ v : ℚ, ∀ s' : HoldState,
       s.minS ≤ s.midS → s.midS ≤ s.maxS →
       holdIter alg hold_util gb s u d v = .ok s' →
       (s'.minS ≤ s'.midS ∧ s'.midS ≤ s'.maxS) ∧
         s.minS ≤ s'.minS ∧ s'.maxS ≤ s.maxS ∧ s'.minS ≤ s'.maxS) ∧
    (∀ s : HoldState, ∀ u : ℚ, ∀ d : Bool, ∀ v : ℚ,
       s.first = false → s.found = true →
       holdIter alg hold_util gb s u d v = .ok s) ∧
    (∀ s : HoldState, ∀ u : ℚ, ∀ d : Bool, ∀ v : ℚ,
       s.first = false → s.found = false → d = true →
       ¬ s.samples.length < alg.util_samples_num →
       |s.samples.sum / (alg.util_samples_num : ℚ) - hold_util| ≤ alg.util_eps →
       holdIter alg hold_util gb s u d v = .ok { s with found := true, samples := [] }) ∧
    (∀ s : HoldState, ∀ inputs : List (ℚ × Bool × ℚ),
       s.first = false → s.found = true →
       holdRun alg hold_util gb s inputs = .ok s) ∧
    (alg.min_sleep_time ≤ alg.max_sleep_time →
       (initHoldState alg).minS ≤ (initHoldState alg).midS ∧
       (initHoldState alg).midS ≤ (initHoldState alg).maxS) := by
  refine ⟨?_, ?_, ?_, ?_, ?_⟩
  · intro s u d v s' hmin hmax hstep
    simp only [holdIter] at hstep
    split_ifs at hstep with h1 h2 h3 h4 h5 h6 h7 <;>
      simp only [Except.ok.injEq, reduceCtorEq] at hstep <;>
      try subst hstep
    · exact ⟨⟨hmin, hmax⟩, le_refl _, le_refl _, hmin.trans hmax⟩
    · exact ⟨⟨hmin, hmax⟩, le_refl _, le_refl _, hmin.trans hmax⟩
    · exact ⟨⟨hmin, hmax⟩, le_refl _, le_refl _, hmin.trans hmax⟩
    · refine ⟨⟨by simp; linarith, by simp; linarith⟩, by simp, by simp; linarith,
        by simp; linarith⟩
    · refine ⟨⟨by simp; linarith, by simp; linarith⟩, by simp; linarith, by simp,
        by simp; linarith⟩
    · refine ⟨⟨by simp; linarith, by simp; linarith⟩, by simp, by simp,
        by simp; linarith⟩
    · exact ⟨⟨hmin, hmax⟩, le_refl _, le_refl _, hmin.trans hmax⟩
  · exact fun s u d v h1 h2 => holdIter_found_fix alg hold_util gb s u d v h1 h2
  · intro s u d v h1 h2 h3 h4 h5
    have hnd : (!s.found && d) = true := by rw [h2, h3]; rfl
    simp [holdIter, h1, hnd, h4, h5]
  · exact fun s inputs h1 h2 => holdRun_found_fix alg hold_util gb s inputs h1 h2
  · intro h
    constructor <;> simp [initHoldState] <;> linarith

/-- C4 witness: the invariant, fixpoint, convergence and initial-state parts
at concrete states with a one-sample window. -/
theorem claim_C4_witness :
    (holdStIdle.minS ≤ holdStIdle.midS ∧ holdStIdle.midS ≤ holdStIdle.maxS ∧
      holdIter algOneSample 0 1 holdStIdle 0 false 0 = .ok holdStIdle) ∧
    ((holdStIdle.minS ≤ holdStIdle.midS ∧ holdStIdle.midS ≤ holdStIdle.maxS) ∧
      holdStIdle.minS ≤ holdStIdle.minS ∧ holdStIdle.maxS ≤ holdStIdle.maxS ∧
      holdStIdle.minS ≤ holdStIdle.maxS) ∧
    holdIter algOneSample 0 1 holdStDone 0 true 0 = .ok holdStDone ∧
    holdIter algOneSample 0 1 holdStMeasured 0 true 0 =
      .ok { holdStMeasured with found := true, samples := [] } ∧
    holdRun algOneSample 0 1 holdStDone [(0, true, 0)] = .ok holdStDone ∧
    ((initHoldState algOneSample).minS ≤ (initHoldState algOneSample).midS ∧
      (initHoldState algOneSample).midS ≤ (initHoldState algOneSample).maxS) :=
  ⟨⟨by decide, by decide, rfl⟩,
   (claim_C4 algOneSample 0 1).1 holdStIdle 0 false 0 holdStIdle (by decide) (by decide) rfl,
   (claim_C4 algOneSample 0 1).2.1 holdStDone 0 true 0 rfl rfl,
   (claim_C4 algOneSample 0 1).2.2.1 holdStMeasured 0 true 0 rfl rfl rfl (by decide)
     sample_window_converges,
   (claim_C4 algOneSample 0 1).2.2.2.1 holdStDone [(0, true, 0)] rfl rfl,
   (claim_C4 algOneSample 0 1).2.2.2.2 (by decide)⟩

lemma one_sub_two_neg : (1 : ℚ) - 2 < 0 := by norm_num

lemma one_sub_zero_nonneg : (0 : ℚ) ≤ 1 - 0 := by norm_num

/-- C6: on the first iteration of the hold loop the controller computes
`holder_gb = gb - used_gb` and raises exactly when it is negative — and then
the whole run aborts regardless of later iterations — otherwise it allocates
the holder sized by `compute_storage_size holder_gb` and clears the `first`
flag; on every later iteration no error is possible and the holder is left
untouched. -/
theorem claim_C6 (alg : AlgorithmConfig) (hold_util gb : ℚ) :
    (∀ s : HoldState, ∀ u : ℚ, ∀ d : Bool, ∀ v : ℚ,
       s.first = true → gb - u < 0 →
       holdIter alg hold_util gb s u d v = .error holdTargetErrMsg ∧
       ∀ rest : List (ℚ × Bool × ℚ),
         holdRun alg hold_util gb s ((u, d, v) :: rest) = .error holdTargetErrMsg) ∧
    (∀ s : HoldState, ∀ u : ℚ, ∀ d : Bool, ∀ v : ℚ,
       s.first = true → 0 ≤ gb - u →
       holdIter alg hold_util gb s u d v =
         .ok { s with first := false,
                      holder := some (compute_storage_size (gb - u)) }) ∧
    (∀ s : HoldState, ∀ u : ℚ, ∀ d : Bool, ∀ v : ℚ,
       s.first = false →
       ∃ s' : HoldState, holdIter alg hold_util gb s u d v = .ok s' ∧
         s'.holder = s.holder ∧ s'.first = false) := by
  refine ⟨?_, ?_, ?_⟩
  · intro s u d v h1 h2
    have hit : holdIter alg hold_util gb s u d v = .error holdTargetErrMsg := by
      simp [holdIter, h1, h2]
    exact ⟨hit, fun rest => by rw [holdRun, hit]⟩
  · intro s u d v h1 h2
    have h3 : ¬ (gb - u < 0) := not_lt.mpr h2
    simp [holdIter, h1, h3]
  · intro s u d v h1
    simp only [holdIter, h1, Bool.false_eq_true, if_false]
    split_ifs <;> first
      | exact ⟨_, rfl, rfl, rfl⟩
      | exact ⟨_, rfl, rfl, h1⟩

/-- C6 witness: with target `gb = 1`, a baseline usage of 2 GB raises on the
first iteration and aborts the run, a baseline of 0 allocates the holder,
and a later iteration leaves the holder untouched. -/
theorem claim_C6_witness :
    (holdStFirst.first = true ∧ (1 : ℚ) - 2 < 0 ∧
      (holdIter algOneSample 0 1 holdStFirst 2 false 0 = .error holdTargetErrMsg ∧
       ∀ rest : List (ℚ × Bool × ℚ),
         holdRun algOneSample 0 1 holdStFirst ((2, false, 0) :: rest) =
           .error holdTargetErrMsg)) ∧
    ((0 : ℚ) ≤ 1 - 0 ∧
      holdIter algOneSample 0 1 holdStFirst 0 false 0 =
        .ok { holdStFirst with first := false,
                               holder := some (compute_storage_size ((1 : ℚ) - 0)) }) ∧
    (holdStIdle.first = false ∧
      ∃ s' : HoldState, holdIter algOneSample 0 1 holdStIdle 0 false 0 = .ok s' ∧
        s'.holder = holdStIdle.holder ∧ s'.first = false) :=
  ⟨⟨rfl, one_sub_two_neg,
    (claim_C6 algOneSample 0 1).1 holdStFirst 2 false 0 rfl one_sub_two_neg⟩,
   ⟨one_sub_zero_nonneg,
    (claim_C6 algOneSample 0 1).2.1 holdStFirst 0 false 0 rfl one_sub_zero_nonneg⟩,
   ⟨rfl, (claim_C6 algOneSample 0 1).2.2 holdStIdle 0 false 0 rfl⟩⟩

lemma deserSig_serSig (sg : Signal) : deserSig (serSig sg) = some sg := by
  cases sg <;> rfl

lemma intDecode_intCode (z : ℤ) : intDecode (intCode z) = z := by
  unfold intCode intDecode
  split_ifs <;> omega

lemma ratDecode_ratTok (q : ℚ) : ratDecode (ratTok q) = q := by
  unfold ratTok ratDecode
  simp only [Nat.add_sub_cancel_left, Nat.unpair_pair]
  rw [intDecode_intCode]
  exact Rat.num_div_den q

lemma deserConfig_serConfig (c : ControllerConfig) (rest : List ℕ) :
    deserConfig (serConfig c ++ rest) = some (c, rest) := by
  simp [serConfig, deserConfig, ratDecode_ratTok, natTok, Nat.add_sub_cancel_left]

lemma bytesToStr_strBytes (s : String) : bytesToStr (strBytes s) = s := by
  unfold bytesToStr strBytes
  rw [List.map_map, show Char.ofNat ∘ Char.toNat = id from funext Char.ofNat_toNat,
    List.map_id]

lemma deser_ser (m : SocketData) : deser (ser m) = some m := by
  obtain ⟨sg, cfg, err⟩ := m
  cases cfg <;> cases err <;>
    simp [ser, deser, deserSig_serSig, deserConfig_serConfig, bytesToStr_strBytes]

lemma eos_no_self_overlap :
    ∀ k < 18, 0 < k → ¬ (EOS.drop k).isPrefixOf EOS = true := by decide

lemma takeBefore_eos_self (stream : List ℕ) (h : EOS.isPrefixOf stream = true)
    (hne : stream ≠ []) :
    takeBefore EOS stream = some [] := by
  cases stream with
  | nil => exact absurd rfl hne
  | cons b rest => simp [takeBefore, h]

lemma takeBefore_append_eos (xs : List ℕ)
    (h : ∀ i < xs.length, ¬ EOS.isPrefixOf ((xs ++ EOS).drop i) = true) :
    takeBefore EOS (xs ++ EOS) = some xs := by
  induction xs with
  | nil =>
      simp only [List.nil_append]
      exact takeBefore_eos_self EOS (by decide) (by decide)
  | cons x xs ih =>
      simp only [List.cons_append, takeBefore, List.append_eq]
      rw [if_neg (by simpa using h 0 (by simp)), ih (fun i hi => by
        simpa [List.drop_succ_cons] using h (i + 1) (by simpa using Nat.succ_lt_succ hi))]
      rfl

lemma no_early_occurrence (s : List ℕ) (hfree : SentinelFree s) :
    ∀ j < s.length, ¬ EOS.isPrefixOf ((s ++ EOS).drop j) = true := by
  intro j hj hpre
  rw [List.drop_append_of_le_length (le_of_lt hj)] at hpre
  rw [ List.isPrefixOf_iff_prefix] at hpre
  have hk1 : 1 ≤ (s.drop j).length := by
    simp only [List.length_drop]
    omega
  have hlen : EOS.length = 18 := by decide
  by_cases h18 : 18 ≤ (s.drop j).length
  · have he : EOS = (s.drop j).take 18 := by
      have he0 := ( List.prefix_iff_eq_take).mp hpre
      rw [hlen, List.take_append_of_le_length h18] at he0
      exact he0
    refine hfree j hj ?_
    rw [ List.isPrefixOf_iff_prefix, he]
    exact List.take_prefix 18 (s.drop j)
  · push_neg at h18
    have he : EOS = s.drop j ++ EOS.take (18 - (s.drop j).length) := by
      have he0 := ( List.prefix_iff_eq_take).mp hpre
      rw [hlen, List.take_append_eq_append_take,
        List.take_of_length_le (le_of_lt h18)] at he0
      exact he0
    have hdrop : EOS.drop (s.drop j).length = EOS.take (18 - (s.drop j).length) := by
      conv_lhs => rw [he]
      exact List.drop_left (s.drop j) (EOS.take (18 - (s.drop j).length))
    have hover : (EOS.drop (s.drop j).length).isPrefixOf EOS = true := by
      rw [ List.isPrefixOf_iff_prefix, hdrop]
      exact List.take_prefix _ _
    exact eos_no_self_overlap (s.drop j).length h18 hk1 hover

/-- C3 (amended): encoding a control message with the sender and decoding the
resulting stream with the receiver returns the original message, provided the
serialized message does not itself contain the sentinel byte sequence; the
only part of a message that can contain it is the error string. -/
theorem claim_C3 (m : SocketData) (h : SentinelFree (ser m)) :
    recv_socket_data (send_socket_data m) = some (some m) := by
  unfold recv_socket_data send_socket_data
  rw [takeBefore_append_eos (ser m) (no_early_occurrence (ser m) h)]
  simp [deser_ser]

/-- C3 witness: the round trip at a message carrying a config and a benign
error text. -/
theorem claim_C3_witness :
    SentinelFree (ser msgBenign) ∧
    recv_socket_data (send_socket_data msgBenign) = some (some msgBenign) :=
  ⟨by decide, claim_C3 msgBenign (by decide)⟩

/-- C3, counterexample: a message whose error string is exactly the sentinel
is framed at the first sentinel occurrence inside the payload, so the decoded
message differs from the sent one (its error comes back empty). -/
theorem claim_C3_counterexample :
    ¬ recv_socket_data (send_socket_data msgSentinelErr) = some (some msgSentinelErr) := by
  decide
